import Mathlib

/-!
Verification of the document-store MCP server (`src/server.py`).

The server's string-level logic is embedded shallowly: Python strings are
modelled as `List Char` (`PyStr`), Python's `str.strip`, `str.rstrip("\n")`,
`str.split`, `str.splitlines`, `str.lower` and the `in` substring test are
given executable Lean counterparts, and each tool function of the server
(`save_to_document`, `check_local_data`, `list_documents`, `read_document`,
`search_document`, `_build_document_summary`) becomes a pure function over
an explicit filesystem state.  The filesystem is a list of directory
entries; per-format text extraction (pypdf / python-docx / UTF-8 decode)
is external to the repository, so each entry carries its extraction
result (`Except` models a raised exception).
-/

/-- Python strings, modelled as lists of characters. -/
abbrev PyStr := List Char

/-- Embed a Lean string literal as a `PyStr`. -/
def pystr (s : String) : PyStr := s.data

/-- Python's whitespace class used by `str.strip()` and `str.split()`:
tab, newline, vertical tab, form feed, carriage return, the separator
control characters 0x1c-0x1f, space, NEL, NBSP and the Unicode space
characters. -/
def pyIsSpace (c : Char) : Bool :=
  c == ' ' || c == '\t' || c == '\n' || c == '\r' ||
  c == Char.ofNat 11 || c == Char.ofNat 12 ||
  c == Char.ofNat 28 || c == Char.ofNat 29 || c == Char.ofNat 30 || c == Char.ofNat 31 ||
  c == Char.ofNat 133 || c == Char.ofNat 160 || c == Char.ofNat 5760 ||
  c == Char.ofNat 8192 || c == Char.ofNat 8193 || c == Char.ofNat 8194 ||
  c == Char.ofNat 8195 || c == Char.ofNat 8196 || c == Char.ofNat 8197 ||
  c == Char.ofNat 8198 || c == Char.ofNat 8199 || c == Char.ofNat 8200 ||
  c == Char.ofNat 8201 || c == Char.ofNat 8202 ||
  c == Char.ofNat 8232 || c == Char.ofNat 8233 ||
  c == Char.ofNat 8239 || c == Char.ofNat 8287 || c == Char.ofNat 12288

/-- Python `str.strip()`: remove leading and trailing whitespace. -/
def pyStrip (l : PyStr) : PyStr :=
  ((l.dropWhile pyIsSpace).reverse.dropWhile pyIsSpace).reverse

/-- The predicate used by `str.rstrip("\n")`. -/
def isNL (c : Char) : Bool := c == '\n'

/-- Python `str.rstrip("\n")`: remove trailing newline characters only. -/
def rstripNL (l : PyStr) : PyStr := (l.reverse.dropWhile isNL).reverse

/-- Python `str.lower()` (ASCII case folding, which covers the server's use). -/
def pyLower (l : PyStr) : PyStr := l.map Char.toLower

/-- Worker for `pySplit`: accumulates the current word reversed. -/
def splitGo (cur : PyStr) : PyStr → List PyStr
  | [] => match cur with
    | [] => []
    | _ => [cur.reverse]
  | c :: rest =>
    if pyIsSpace c then
      match cur with
      | [] => splitGo [] rest
      | _ => cur.reverse :: splitGo [] rest
    else splitGo (c :: cur) rest

/-- Python `str.split()` with no arguments: split on runs of whitespace,
discarding empty fragments. -/
def pySplit (l : PyStr) : List PyStr := splitGo [] l

/-- Python's line-boundary characters for `str.splitlines()`. -/
def lineBreakChar (c : Char) : Bool :=
  c == '\n' || c == '\r' || c == Char.ofNat 11 || c == Char.ofNat 12 ||
  c == Char.ofNat 28 || c == Char.ofNat 29 || c == Char.ofNat 30 ||
  c == Char.ofNat 133 || c == Char.ofNat 8232 || c == Char.ofNat 8233

/-- Worker for `pySplitlines`: accumulates the current line reversed. -/
def splitlinesGo (cur : PyStr) : PyStr → List PyStr
  | [] => [cur.reverse]
  | '\r' :: '\n' :: rest =>
    cur.reverse :: (match rest with
      | [] => []
      | _ => splitlinesGo [] rest)
  | c :: rest =>
    if lineBreakChar c then
      cur.reverse :: (match rest with
        | [] => []
        | _ => splitlinesGo [] rest)
    else splitlinesGo (c :: cur) rest

/-- Python `str.splitlines()`: split at line boundaries (`\r\n` counts as
one boundary); a trailing boundary produces no trailing empty line. -/
def pySplitlines (l : PyStr) : List PyStr :=
  match l with
  | [] => []
  | _ => splitlinesGo [] l

/-- Python's `needle in hay` substring test. -/
def isSubstrOf (needle hay : PyStr) : Bool :=
  hay.tails.any (fun t => needle.isPrefixOf t)

/-- Python `sep.join(parts)`. -/
def joinSep (sep : PyStr) : List PyStr → PyStr
  | [] => []
  | [x] => x
  | x :: y :: ys => x ++ sep ++ joinSep sep (y :: ys)

deriving instance DecidableEq for Except

/-- One directory entry of the store root (`DOCS_DIR`).  `extract` is the
text the format adapters produce for this entry: `Except.ok` the extracted
text, `Except.error` a raised extraction exception with its message. -/
structure PyFile where
  name : PyStr
  suffix : PyStr
  isFile : Bool
  extract : Except PyStr PyStr
deriving DecidableEq, Repr

/-- Membership of the suffix in `SUPPORTED_EXTENSIONS`. -/
def supportedExt (s : PyStr) : Bool :=
  s == pystr ".pdf" || s == pystr ".docx" || s == pystr ".txt"

/-- The extension-filtered file set used by `check_local_data`,
`_build_document_summary` and `resource_all_documents`. -/
def docFiles (fs : List PyFile) : List PyFile :=
  fs.filter (fun f => f.isFile && supportedExt f.suffix)

/-- Resolution of `DOCS_DIR / filename` against the directory listing. -/
def findFile (fs : List PyFile) (name : PyStr) : Option PyFile :=
  fs.find? (fun f => f.name == name)

/-- Embedding of `_read_file`: dispatch on the suffix; unsupported
extensions yield the empty string. -/
def _read_file (f : PyFile) : Except PyStr PyStr :=
  if f.suffix == pystr ".pdf" then f.extract
  else if f.suffix == pystr ".docx" then f.extract
  else if f.suffix == pystr ".txt" then f.extract
  else Except.ok []

/-- The preview computed by `_build_document_summary`:
`content[:500].strip()`. -/
def previewOf (content : PyStr) : PyStr := pyStrip (content.take 500)

/-- One iteration of the `_build_document_summary` loop: `none` when the
entry contributes no line to the summary. -/
def summaryEntry (f : PyFile) : Option PyStr :=
  if f.isFile && supportedExt f.suffix then
    match f.extract with
    | Except.ok content =>
      if content = [] then none
      else some (pystr "  - " ++ f.name ++ pystr ": " ++ previewOf content)
    | Except.error _ => some (pystr "  - " ++ f.name ++ pystr ": (could not read)")
  else none

/-- The list `summaries` built by `_build_document_summary`. -/
def summaryEntries (fs : List PyFile) : List PyStr := fs.filterMap summaryEntry

/-- Embedding of `_build_document_summary`. -/
def _build_document_summary (fs : List PyFile) : PyStr :=
  if summaryEntries fs = [] then pystr "No documents currently stored."
  else pystr "Documents currently stored:\n" ++ joinSep (pystr "\n") (summaryEntries fs)

/-- The token list `query_words` of `check_local_data`. -/
def queryWords (query : PyStr) : List PyStr :=
  (pySplit (pyLower query)).filter (fun w => w.length > 1)

/-- The per-line test of `check_local_data`:
`any(word in line_lower for word in query_words)`. -/
def lineMatches (words : List PyStr) (line : PyStr) : Bool :=
  words.any (fun w => isSubstrOf w (pyLower line))

/-- The list `matched_lines` of `check_local_data` for one document. -/
def matchedLines (words : List PyStr) (content : PyStr) : List PyStr :=
  (pySplitlines content).filter (lineMatches words)

/-- One iteration of the `check_local_data` loop over `doc_files`:
`none` when the document contributes no block. -/
def checkDoc (words : List PyStr) (f : PyFile) : Option PyStr :=
  match f.extract with
  | Except.error e =>
    some (pystr "── Error reading " ++ f.name ++ pystr ": " ++ e ++ pystr " ──")
  | Except.ok content =>
    if content = [] then none
    else
      let matched := matchedLines words content
      if matched = [] then
        some (pystr "── Full content of " ++ f.name ++
          pystr " (no direct keyword match, review this data carefully) ──\n" ++ content)
      else
        some (pystr "── From " ++ f.name ++ pystr " ──\n" ++ joinSep (pystr "\n") matched)

/-- Embedding of the `check_local_data` tool. -/
def check_local_data (fs : List PyFile) (query : PyStr) : PyStr :=
  if docFiles fs = [] then
    pystr "No documents found in local store. You may now answer from your own knowledge."
  else
    if (docFiles fs).filterMap (checkDoc (queryWords query)) = [] then
      pystr "No relevant information found in local documents. You may now answer from your own knowledge."
    else joinSep (pystr "\n\n") ((docFiles fs).filterMap (checkDoc (queryWords query)))

/-- Embedding of the `list_documents` tool. -/
def list_documents (fs : List PyFile) : List PyStr :=
  let files := (fs.filter (fun f => f.isFile)).map (fun f => f.name)
  if files = [] then [pystr "No documents found."]
  else files

/-- Embedding of the `read_document` tool.  `Except.error` models an
extraction exception propagating out of the call. -/
def read_document (fs : List PyFile) (filename : PyStr) : Except PyStr PyStr :=
  match findFile fs filename with
  | none => Except.ok (pystr "File not found.")
  | some f =>
    match _read_file f with
    | Except.error e => Except.error e
    | Except.ok content =>
      Except.ok (if content = [] then pystr "Unsupported file format." else content)

/-- The list `matches` of `search_document`. -/
def searchMatches (query content : PyStr) : List PyStr :=
  (pySplitlines content).filter (fun line => isSubstrOf (pyLower query) (pyLower line))

/-- Embedding of the `search_document` tool. -/
def search_document (fs : List PyFile) (filename query : PyStr) : Except PyStr PyStr :=
  match read_document fs filename with
  | Except.error e => Except.error e
  | Except.ok content =>
    if content = pystr "File not found." then Except.ok content
    else
      Except.ok (if searchMatches query content = [] then pystr "No relevant content found."
        else joinSep (pystr "\n") ((searchMatches query content).take 10))

/-- Embedding of the `save_to_document` tool over the state of
`trial_document.txt`: `none` models an absent file.  Returns the reply
string and the resulting file state. -/
def save_to_document (fileState : Option PyStr) (data : PyStr) : PyStr × Option PyStr :=
  if data = [] ∨ pyStrip data = [] then
    (pystr "❌ No data provided. Please provide information to save.", fileState)
  else
    let existing : PyStr := fileState.getD []
    let new_content : PyStr :=
      if pyStrip existing = [] then pyStrip data ++ pystr "\n"
      else rstripNL existing ++ pystr "\n\n" ++ pyStrip data ++ pystr "\n"
    (pystr "✅ Data saved successfully to trial_document.txt.", some new_content)

example : pySplitlines (pystr "a\r\nb\rc\nd") = [pystr "a", pystr "b", pystr "c", pystr "d"] := rfl
example : pySplitlines (pystr "a\n") = [pystr "a"] := rfl
example : pySplitlines (pystr "\n") = [pystr ""] := rfl
example : pySplitlines (pystr "") = [] := rfl
example : pySplit (pystr "  a  bc ") = [pystr "a", pystr "bc"] := rfl
example : pyStrip (pystr " \t a b \n ") = pystr "a b" := rfl
example : rstripNL (pystr "ab \n\n") = pystr "ab " := rfl
example : isSubstrOf (pystr "paris") (pystr "bob lives in paris") = true := rfl
example : isSubstrOf (pystr "x") (pystr "ab") = false := rfl
example : isSubstrOf (pystr "") (pystr "ab") = true := rfl
example : save_to_document none (pystr "Name\tJohn Doe")
    = (pystr "✅ Data saved successfully to trial_document.txt.", some (pystr "Name\tJohn Doe\n")) := rfl
example : (save_to_document (some (pystr "Name\tJohn Doe\n")) (pystr "Name\tJane")).2
    = some (pystr "Name\tJohn Doe\n\nName\tJane\n") := rfl

/-! Helper lemmas about the Python string primitives. -/

/-- The first element surviving `dropWhile` fails the predicate. -/
theorem dropWhile_cons_false {p : Char → Bool} {l : List Char} {c : Char} {rest : List Char}
    (h : l.dropWhile p = c :: rest) : p c = false := by
  induction l with
  | nil => simp [List.dropWhile] at h
  | cons a t ih =>
    rw [List.dropWhile_cons] at h
    by_cases hpa : p a = true
    · exact ih (by simpa [hpa] using h)
    · have hac : a = c := by
        simpa [hpa] using congrArg (fun l => l.head?) h
      subst hac
      simpa using hpa

/-- Dropping a satisfied run does not change whether all elements satisfy. -/
theorem forall_dropWhile_iff (p : Char → Bool) (l : List Char) :
    (∀ c ∈ l.dropWhile p, p c = true) ↔ (∀ c ∈ l, p c = true) := by
  induction l with
  | nil => simp
  | cons a t ih =>
    rw [List.dropWhile_cons]
    by_cases hpa : p a = true
    · simp [hpa, ih]
    · simp [hpa]

/-- A string strips to empty exactly when it is all whitespace. -/
theorem pyStrip_eq_nil_iff (l : PyStr) :
    pyStrip l = [] ↔ ∀ c ∈ l, pyIsSpace c = true := by
  unfold pyStrip
  rw [List.reverse_eq_nil_iff, List.dropWhile_eq_nil_iff]
  constructor
  · intro h
    rw [← forall_dropWhile_iff pyIsSpace l]
    intro c hc
    exact h c (List.mem_reverse.mpr hc)
  · intro h c hc
    exact h c ((List.dropWhile_sublist pyIsSpace).mem (List.mem_reverse.mp hc))

/-- A string does not strip to empty when it holds a non-whitespace char. -/
theorem pyStrip_ne_nil_of_mem {l : PyStr} {c : Char} (hc : c ∈ l) (hs : pyIsSpace c = false) :
    pyStrip l ≠ [] := by
  intro h
  have := (pyStrip_eq_nil_iff l).mp h c hc
  rw [hs] at this
  exact Bool.false_ne_true this

/-- A non-empty stripped string ends in a non-whitespace character. -/
theorem pyStrip_last_not_space (l : PyStr) (h : pyStrip l ≠ []) :
    ∃ c rest, pyStrip l = rest ++ [c] ∧ pyIsSpace c = false := by
  have hB : ((l.dropWhile pyIsSpace).reverse.dropWhile pyIsSpace) ≠ [] := by
    intro hnil
    apply h
    unfold pyStrip
    rw [hnil]
    rfl
  obtain ⟨c, t, hct⟩ := List.exists_cons_of_ne_nil hB
  refine ⟨c, t.reverse, ?_, dropWhile_cons_false hct⟩
  unfold pyStrip
  rw [hct, List.reverse_cons]

/-- A non-empty stripped string starts with a non-whitespace character. -/
theorem pyStrip_head_not_space (l : PyStr) (h : pyStrip l ≠ []) :
    ∃ c rest, pyStrip l = c :: rest ∧ pyIsSpace c = false := by
  obtain ⟨c, rest, hcr⟩ := List.exists_cons_of_ne_nil h
  refine ⟨c, rest, hcr, ?_⟩
  have hsplit := congrArg List.reverse
    (List.takeWhile_append_dropWhile pyIsSpace ((l.dropWhile pyIsSpace).reverse))
  rw [List.reverse_append, List.reverse_reverse] at hsplit
  have hsplit' : pyStrip l ++ ((l.dropWhile pyIsSpace).reverse.takeWhile pyIsSpace).reverse
      = l.dropWhile pyIsSpace := hsplit
  rw [hcr, List.cons_append] at hsplit'
  exact dropWhile_cons_false hsplit'.symm

/-- Stripping trailing newlines from a block that ends in one non-newline
character followed by a single newline removes exactly that newline. -/
theorem rstripNL_append_single (P S : PyStr) (c : Char) (rest : PyStr)
    (hS : S = rest ++ [c]) (hc : (c == '\n') = false) :
    rstripNL (P ++ S ++ pystr "\n") = P ++ S := by
  subst hS
  unfold rstripNL
  have h1 : (P ++ (rest ++ [c]) ++ pystr "\n").reverse
      = '\n' :: c :: (rest.reverse ++ P.reverse) := by
    simp [pystr]
  rw [h1]
  have h2 : List.dropWhile isNL ('\n' :: c :: (rest.reverse ++ P.reverse))
      = c :: (rest.reverse ++ P.reverse) := by
    simp [List.dropWhile_cons, isNL, hc]
  rw [h2]
  simp [List.append_assoc]

/-- The reply and resulting file of `save_to_document` on non-blank data. -/
theorem save_to_document_not_blank (fileState : Option PyStr) (data : PyStr)
    (hd : pyStrip data ≠ []) :
    save_to_document fileState data
      = (pystr "✅ Data saved successfully to trial_document.txt.",
         some (if pyStrip (fileState.getD []) = [] then pyStrip data ++ pystr "\n"
               else rstripNL (fileState.getD []) ++ pystr "\n\n" ++ pyStrip data ++ pystr "\n")) := by
  have hcond : ¬ (data = [] ∨ pyStrip data = []) := by
    rintro (h1 | h2)
    · exact hd (by rw [h1]; rfl)
    · exact hd h2
  unfold save_to_document
  rw [if_neg hcond]

/-- Appending onto a file whose content is a block ending in a stripped
record plus one newline: the separator normalizes to one blank line. -/
theorem save_onto_nonblank (existing P S data : PyStr)
    (hEx : existing = P ++ S ++ pystr "\n")
    (hhead : ∃ c rest, S = c :: rest ∧ pyIsSpace c = false)
    (hlast : ∃ c rest, S = rest ++ [c] ∧ pyIsSpace c = false)
    (hd : pyStrip data ≠ []) :
    save_to_document (some existing) data
      = (pystr "✅ Data saved successfully to trial_document.txt.",
         some (P ++ S ++ pystr "\n\n" ++ pyStrip data ++ pystr "\n")) := by
  obtain ⟨c0, rest0, hS0, hc0⟩ := hhead
  obtain ⟨c1, rest1, hS1, hc1⟩ := hlast
  have hmem : c0 ∈ existing := by
    rw [hEx, hS0]
    simp
  have hne : pyStrip existing ≠ [] := pyStrip_ne_nil_of_mem hmem hc0
  have hnlc1 : (c1 == '\n') = false := by
    cases hcn : c1 == '\n'
    · rfl
    · rw [eq_of_beq hcn] at hc1
      exact absurd hc1 (by decide)
  have hr : rstripNL existing = P ++ S := by
    rw [hEx]
    exact rstripNL_append_single P S c1 rest1 hS1 hnlc1
  rw [save_to_document_not_blank _ _ hd]
  rw [Option.getD_some, if_neg hne, hr]

/-- C1: two successive `save_to_document` calls with non-whitespace inputs
leave the target file holding the two stripped data blocks separated by
exactly one blank line, regardless of trailing whitespace in either input;
the first block ends with a non-whitespace character and the second starts
with one, so no stray whitespace survives into the separator. -/
theorem save_twice_single_blank_separator (fs0 : Option PyStr) (d1 d2 : PyStr)
    (h1 : pyStrip d1 ≠ []) (h2 : pyStrip d2 ≠ []) :
    (∃ pre, (save_to_document (save_to_document fs0 d1).2 d2).2
        = some (pre ++ pyStrip d1 ++ pystr "\n\n" ++ pyStrip d2 ++ pystr "\n"))
    ∧ (∃ c rest, pyStrip d1 = rest ++ [c] ∧ pyIsSpace c = false)
    ∧ (∃ c rest, pyStrip d2 = c :: rest ∧ pyIsSpace c = false) := by
  refine ⟨?_, pyStrip_last_not_space d1 h1, pyStrip_head_not_space d2 h2⟩
  have hstep : (save_to_document fs0 d1).2
      = some (if pyStrip (fs0.getD []) = [] then pyStrip d1 ++ pystr "\n"
              else rstripNL (fs0.getD []) ++ pystr "\n\n" ++ pyStrip d1 ++ pystr "\n") := by
    rw [save_to_document_not_blank fs0 d1 h1]
  by_cases hex : pyStrip (fs0.getD []) = []
  · rw [hstep, if_pos hex]
    have hs := save_onto_nonblank (pyStrip d1 ++ pystr "\n") [] (pyStrip d1) d2
      (by rw [List.nil_append])
      (pyStrip_head_not_space d1 h1) (pyStrip_last_not_space d1 h1) h2
    refine ⟨[], ?_⟩
    rw [hs]
  · rw [hstep, if_neg hex]
    refine ⟨rstripNL (fs0.getD []) ++ pystr "\n\n", ?_⟩
    have hs := save_onto_nonblank
      (rstripNL (fs0.getD []) ++ pystr "\n\n" ++ pyStrip d1 ++ pystr "\n")
      (rstripNL (fs0.getD []) ++ pystr "\n\n") (pyStrip d1) d2
      rfl
      (pyStrip_head_not_space d1 h1) (pyStrip_last_not_space d1 h1) h2
    rw [hs]

/-- C1 witness: saving a record with trailing blanks and then one with a
trailing newline yields the two trimmed blocks around one blank line. -/
theorem save_twice_single_blank_separator_witness :
    (∃ pre, (save_to_document (save_to_document none (pystr "Name\tJohn Doe  ")).2
        (pystr "Name\tJane\n")).2
        = some (pre ++ pyStrip (pystr "Name\tJohn Doe  ") ++ pystr "\n\n"
            ++ pyStrip (pystr "Name\tJane\n") ++ pystr "\n"))
    ∧ (∃ c rest, pyStrip (pystr "Name\tJohn Doe  ") = rest ++ [c] ∧ pyIsSpace c = false)
    ∧ (∃ c rest, pyStrip (pystr "Name\tJane\n") = c :: rest ∧ pyIsSpace c = false) :=
  save_twice_single_blank_separator none _ _ (by decide) (by decide)

/-- C2: saving non-whitespace data when the target file is absent or empty
produces exactly the trimmed input followed by a single newline. -/
theorem save_fresh_file (fs0 : Option PyStr) (data : PyStr)
    (h0 : fs0 = none ∨ fs0 = some []) (hd : pyStrip data ≠ []) :
    save_to_document fs0 data
      = (pystr "✅ Data saved successfully to trial_document.txt.",
         some (pyStrip data ++ pystr "\n")) := by
  have hex : pyStrip (fs0.getD []) = [] := by
    rcases h0 with h | h <;> rw [h] <;> rfl
  rw [save_to_document_not_blank fs0 data hd, if_pos hex]

/-- C2 witness: the §8 scenario, saving "Name\tJohn Doe" into an absent file. -/
theorem save_fresh_file_witness :
    save_to_document none (pystr "Name\tJohn Doe")
      = (pystr "✅ Data saved successfully to trial_document.txt.",
         some (pyStrip (pystr "Name\tJohn Doe") ++ pystr "\n")) :=
  save_fresh_file none (pystr "Name\tJohn Doe") (Or.inl rfl) (by decide)

/-- C3: empty or all-whitespace data is rejected with a failure reply and
the target file state is returned unchanged (no write happens). -/
theorem save_rejects_blank (fs0 : Option PyStr) (data : PyStr)
    (hd : pyStrip data = []) :
    save_to_document fs0 data
      = (pystr "❌ No data provided. Please provide information to save.", fs0) := by
  unfold save_to_document
  rw [if_pos (Or.inr hd)]

/-- C3 witness: whitespace-only data leaves an existing file untouched. -/
theorem save_rejects_blank_witness :
    save_to_document (some (pystr "Name\tJohn Doe\n")) (pystr " \t \n")
      = (pystr "❌ No data provided. Please provide information to save.",
         some (pystr "Name\tJohn Doe\n")) :=
  save_rejects_blank (some (pystr "Name\tJohn Doe\n")) (pystr " \t \n") (by decide)

/-- Every member of a joined list appears between some prefix and suffix of
the joined string. -/
theorem joinSep_infix_of_mem (sep : PyStr) (l : List PyStr) (a : PyStr) (h : a ∈ l) :
    ∃ pre post, joinSep sep l = pre ++ a ++ post := by
  induction l with
  | nil => exact absurd h (List.not_mem_nil a)
  | cons x xs ih =>
    rcases List.mem_cons.mp h with hax | hmem
    · subst hax
      cases xs with
      | nil => exact ⟨[], [], by simp [joinSep]⟩
      | cons y ys =>
        exact ⟨[], sep ++ joinSep sep (y :: ys), by simp [joinSep, List.append_assoc]⟩
    · cases xs with
      | nil => exact absurd hmem (List.not_mem_nil a)
      | cons y ys =>
        obtain ⟨pre, post, hpp⟩ := ih hmem
        exact ⟨x ++ sep ++ pre, post, by simp [joinSep, hpp, List.append_assoc]⟩

/-- A block emitted for a filtered document occurs inside the
`check_local_data` reply. -/
theorem check_block_infix (fs : List PyFile) (query : PyStr) (f : PyFile) (block : PyStr)
    (hf : f ∈ docFiles fs) (hb : checkDoc (queryWords query) f = some block) :
    ∃ pre post, check_local_data fs query = pre ++ block ++ post := by
  have hdocs : docFiles fs ≠ [] := List.ne_nil_of_mem hf
  have hmem : block ∈ (docFiles fs).filterMap (checkDoc (queryWords query)) :=
    List.mem_filterMap.mpr ⟨f, hf, hb⟩
  have hres : (docFiles fs).filterMap (checkDoc (queryWords query)) ≠ [] :=
    List.ne_nil_of_mem hmem
  unfold check_local_data
  rw [if_neg hdocs, if_neg hres]
  exact joinSep_infix_of_mem _ _ block hmem

/-- C4: for an extension-filtered document with non-empty content, when some
line matches a query token the document's block in the `check_local_data`
reply holds exactly the matching lines (the filter of the content's lines by
the any-token substring test), in original order, one occurrence per
matching line. -/
theorem check_local_data_matched_block (fs : List PyFile) (query : PyStr)
    (f : PyFile) (content : PyStr)
    (hf : f ∈ docFiles fs) (hex : f.extract = Except.ok content) (hne : content ≠ [])
    (hm : ∃ line ∈ pySplitlines content, lineMatches (queryWords query) line = true) :
    matchedLines (queryWords query) content
        = (pySplitlines content).filter (lineMatches (queryWords query))
    ∧ List.Sublist (matchedLines (queryWords query) content) (pySplitlines content)
    ∧ ∃ pre post, check_local_data fs query
        = pre ++ (pystr "── From " ++ f.name ++ pystr " ──\n"
            ++ joinSep (pystr "\n") (matchedLines (queryWords query) content)) ++ post := by
  have hml : matchedLines (queryWords query) content ≠ [] := by
    obtain ⟨line, hlm, hmt⟩ := hm
    exact List.ne_nil_of_mem (List.mem_filter.mpr ⟨hlm, hmt⟩)
  refine ⟨rfl, List.filter_sublist _, ?_⟩
  apply check_block_infix fs query f _ hf
  simp only [checkDoc, hex]
  rw [if_neg hne, if_neg hml]

/-- C4 witness: the §8 scenario, query "Paris" against a.txt whose second
line matches. -/
theorem check_local_data_matched_block_witness :
    matchedLines (queryWords (pystr "Paris")) (pystr "Alice\nBob lives in Paris")
        = (pySplitlines (pystr "Alice\nBob lives in Paris")).filter
            (lineMatches (queryWords (pystr "Paris")))
    ∧ List.Sublist
        (matchedLines (queryWords (pystr "Paris")) (pystr "Alice\nBob lives in Paris"))
        (pySplitlines (pystr "Alice\nBob lives in Paris"))
    ∧ ∃ pre post, check_local_data
        [⟨pystr "a.txt", pystr ".txt", true, Except.ok (pystr "Alice\nBob lives in Paris")⟩,
         ⟨pystr "b.txt", pystr ".txt", true, Except.ok (pystr "No relevant info here")⟩]
        (pystr "Paris")
        = pre ++ (pystr "── From " ++ pystr "a.txt" ++ pystr " ──\n"
            ++ joinSep (pystr "\n")
              (matchedLines (queryWords (pystr "Paris")) (pystr "Alice\nBob lives in Paris"))) ++ post :=
  check_local_data_matched_block
    [⟨pystr "a.txt", pystr ".txt", true, Except.ok (pystr "Alice\nBob lives in Paris")⟩,
     ⟨pystr "b.txt", pystr ".txt", true, Except.ok (pystr "No relevant info here")⟩]
    (pystr "Paris")
    ⟨pystr "a.txt", pystr ".txt", true, Except.ok (pystr "Alice\nBob lives in Paris")⟩
    (pystr "Alice\nBob lives in Paris")
    (by decide) rfl (by decide) (by decide)

/-- C5: an extension-filtered document with non-empty content and no
matching line contributes a labeled block with its entire content, flagged
as having no direct match. -/
theorem check_local_data_full_fallback (fs : List PyFile) (query : PyStr)
    (f : PyFile) (content : PyStr)
    (hf : f ∈ docFiles fs) (hex : f.extract = Except.ok content) (hne : content ≠ [])
    (hm : matchedLines (queryWords query) content = []) :
    ∃ pre post, check_local_data fs query
      = pre ++ (pystr "── Full content of " ++ f.name
          ++ pystr " (no direct keyword match, review this data carefully) ──\n"
          ++ content) ++ post := by
  apply check_block_infix fs query f _ hf
  simp only [checkDoc, hex]
  rw [if_neg hne, if_pos hm]

/-- C5 witness: the §8 scenario, query "Paris" against b.txt which has no
matching line, so its full content is emitted. -/
theorem check_local_data_full_fallback_witness :
    ∃ pre post, check_local_data
      [⟨pystr "a.txt", pystr ".txt", true, Except.ok (pystr "Alice\nBob lives in Paris")⟩,
       ⟨pystr "b.txt", pystr ".txt", true, Except.ok (pystr "No relevant info here")⟩]
      (pystr "Paris")
      = pre ++ (pystr "── Full content of " ++ pystr "b.txt"
          ++ pystr " (no direct keyword match, review this data carefully) ──\n"
          ++ pystr "No relevant info here") ++ post :=
  check_local_data_full_fallback
    [⟨pystr "a.txt", pystr ".txt", true, Except.ok (pystr "Alice\nBob lives in Paris")⟩,
     ⟨pystr "b.txt", pystr ".txt", true, Except.ok (pystr "No relevant info here")⟩]
    (pystr "Paris")
    ⟨pystr "b.txt", pystr ".txt", true, Except.ok (pystr "No relevant info here")⟩
    (pystr "No relevant info here")
    (by decide) rfl (by decide) (by decide)

/-- C6 counterexample: on a store root with no files, `list_documents`
returns the one-element sentinel list, not an empty sequence. -/
theorem list_documents_empty_counterexample :
    list_documents [] = [pystr "No documents found."]
    ∧ list_documents [] ≠ ([] : List PyStr) :=
  ⟨rfl, by decide⟩

/-- C6 amended: when the store root contains no files, `list_documents`
returns the one-element list holding the fixed "No documents found."
message. -/
theorem list_documents_no_files (fs : List PyFile) (h : ∀ f ∈ fs, f.isFile = false) :
    list_documents fs = [pystr "No documents found."] := by
  have hfil : fs.filter (fun f => f.isFile) = [] := by
    rw [List.filter_eq_nil_iff]
    intro f hf
    rw [h f hf]
    simp
  unfold list_documents
  rw [hfil]
  simp

/-- C6 witness: a root holding only the photos subdirectory. -/
theorem list_documents_no_files_witness :
    list_documents [⟨pystr "photos", pystr "", false, Except.ok []⟩]
      = [pystr "No documents found."] :=
  list_documents_no_files _ (by decide)

/-- C7: `search_document` on a found document returns the first at most ten
matching lines (case-insensitive substring of the whole query), a prefix of
the full match list, and the fixed message when no line matches. -/
theorem search_document_truncates (fs : List PyFile) (filename query content : PyStr)
    (hread : read_document fs filename = Except.ok content)
    (hnf : content ≠ pystr "File not found.") :
    (searchMatches query content = [] →
        search_document fs filename query = Except.ok (pystr "No relevant content found."))
    ∧ (searchMatches query content ≠ [] →
        search_document fs filename query
          = Except.ok (joinSep (pystr "\n") ((searchMatches query content).take 10))
        ∧ ((searchMatches query content).take 10).length ≤ 10
        ∧ List.IsPrefix ((searchMatches query content).take 10) (searchMatches query content)) := by
  constructor
  · intro hm
    simp only [search_document, hread]
    rw [if_neg hnf, if_pos hm]
  · intro hm
    refine ⟨?_, List.length_take_le 10 _,
      ⟨(searchMatches query content).drop 10, List.take_append_drop 10 _⟩⟩
    simp only [search_document, hread]
    rw [if_neg hnf, if_neg hm]

/-- C7 witness: a document with twelve matching lines is truncated to ten. -/
theorem search_document_truncates_witness :
    (searchMatches (pystr "x") (pystr "x1\nx2\nx3\nx4\nx5\nx6\nx7\nx8\nx9\nx10\nx11\nx12") = [] →
        search_document [⟨pystr "n.txt", pystr ".txt", true,
            Except.ok (pystr "x1\nx2\nx3\nx4\nx5\nx6\nx7\nx8\nx9\nx10\nx11\nx12")⟩]
          (pystr "n.txt") (pystr "x")
          = Except.ok (pystr "No relevant content found."))
    ∧ (searchMatches (pystr "x") (pystr "x1\nx2\nx3\nx4\nx5\nx6\nx7\nx8\nx9\nx10\nx11\nx12") ≠ [] →
        search_document [⟨pystr "n.txt", pystr ".txt", true,
            Except.ok (pystr "x1\nx2\nx3\nx4\nx5\nx6\nx7\nx8\nx9\nx10\nx11\nx12")⟩]
          (pystr "n.txt") (pystr "x")
          = Except.ok (joinSep (pystr "\n")
              ((searchMatches (pystr "x")
                (pystr "x1\nx2\nx3\nx4\nx5\nx6\nx7\nx8\nx9\nx10\nx11\nx12")).take 10))
        ∧ ((searchMatches (pystr "x")
              (pystr "x1\nx2\nx3\nx4\nx5\nx6\nx7\nx8\nx9\nx10\nx11\nx12")).take 10).length ≤ 10
        ∧ List.IsPrefix
            ((searchMatches (pystr "x")
              (pystr "x1\nx2\nx3\nx4\nx5\nx6\nx7\nx8\nx9\nx10\nx11\nx12")).take 10)
            (searchMatches (pystr "x")
              (pystr "x1\nx2\nx3\nx4\nx5\nx6\nx7\nx8\nx9\nx10\nx11\nx12"))) :=
  search_document_truncates
    [⟨pystr "n.txt", pystr ".txt", true,
        Except.ok (pystr "x1\nx2\nx3\nx4\nx5\nx6\nx7\nx8\nx9\nx10\nx11\nx12")⟩]
    (pystr "n.txt") (pystr "x")
    (pystr "x1\nx2\nx3\nx4\nx5\nx6\nx7\nx8\nx9\nx10\nx11\nx12")
    rfl (by decide)

/-- C8 counterexample: an extension-filtered text file whose extraction is
the empty string contributes no entry at all — the summary omits it. -/
theorem summary_omits_empty_doc :
    docFiles [⟨pystr "empty.txt", pystr ".txt", true, Except.ok []⟩]
        = [⟨pystr "empty.txt", pystr ".txt", true, Except.ok []⟩]
    ∧ summaryEntry ⟨pystr "empty.txt", pystr ".txt", true, Except.ok []⟩ = none
    ∧ summaryEntries [⟨pystr "empty.txt", pystr ".txt", true, Except.ok []⟩] = []
    ∧ _build_document_summary [⟨pystr "empty.txt", pystr ".txt", true, Except.ok []⟩]
        = pystr "No documents currently stored." :=
  ⟨rfl, rfl, rfl, rfl⟩

/-- C8 amended: every extension-filtered document with non-empty extracted
content contributes its preview entry, every one whose extraction fails
contributes the "(could not read)" sentinel, and a document with empty
extracted content is skipped. -/
theorem summary_covers_nonempty_and_failed (fs : List PyFile) (f : PyFile)
    (hf : f ∈ fs) (hfile : f.isFile = true) (hsuf : supportedExt f.suffix = true) :
    (∀ content, f.extract = Except.ok content → content ≠ [] →
        (pystr "  - " ++ f.name ++ pystr ": " ++ previewOf content) ∈ summaryEntries fs)
    ∧ (∀ e, f.extract = Except.error e →
        (pystr "  - " ++ f.name ++ pystr ": (could not read)") ∈ summaryEntries fs)
    ∧ (f.extract = Except.ok [] → summaryEntry f = none) := by
  refine ⟨?_, ?_, ?_⟩
  · intro content hex hne
    exact List.mem_filterMap.mpr ⟨f, hf, by simp [summaryEntry, hfile, hsuf, hex, hne]⟩
  · intro e hex
    exact List.mem_filterMap.mpr ⟨f, hf, by simp [summaryEntry, hfile, hsuf, hex]⟩
  · intro hex
    simp [summaryEntry, hfile, hsuf, hex]

/-- C8 witness: a readable document next to an unreadable one. -/
theorem summary_covers_nonempty_and_failed_witness :
    (∀ content,
        (⟨pystr "good.txt", pystr ".txt", true, Except.ok (pystr "Hello")⟩ : PyFile).extract
          = Except.ok content → content ≠ [] →
        (pystr "  - " ++ pystr "good.txt" ++ pystr ": " ++ previewOf content)
          ∈ summaryEntries
            [⟨pystr "good.txt", pystr ".txt", true, Except.ok (pystr "Hello")⟩,
             ⟨pystr "bad.pdf", pystr ".pdf", true, Except.error (pystr "boom")⟩])
    ∧ (∀ e,
        (⟨pystr "good.txt", pystr ".txt", true, Except.ok (pystr "Hello")⟩ : PyFile).extract
          = Except.error e →
        (pystr "  - " ++ pystr "good.txt" ++ pystr ": (could not read)")
          ∈ summaryEntries
            [⟨pystr "good.txt", pystr ".txt", true, Except.ok (pystr "Hello")⟩,
             ⟨pystr "bad.pdf", pystr ".pdf", true, Except.error (pystr "boom")⟩])
    ∧ ((⟨pystr "good.txt", pystr ".txt", true, Except.ok (pystr "Hello")⟩ : PyFile).extract
          = Except.ok [] →
        summaryEntry ⟨pystr "good.txt", pystr ".txt", true, Except.ok (pystr "Hello")⟩ = none) :=
  summary_covers_nonempty_and_failed
    [⟨pystr "good.txt", pystr ".txt", true, Except.ok (pystr "Hello")⟩,
     ⟨pystr "bad.pdf", pystr ".pdf", true, Except.error (pystr "boom")⟩]
    ⟨pystr "good.txt", pystr ".txt", true, Except.ok (pystr "Hello")⟩
    (by decide) rfl rfl

set_option maxRecDepth 10000 in
/-- C9 counterexample: for content of 500 spaces followed by "a" the code
previews the strip of the first 500 characters, which is empty, while the
first 500 characters of the stripped content are "a". -/
theorem preview_counterexample :
    previewOf (List.replicate 500 ' ' ++ ['a']) = []
    ∧ (pyStrip (List.replicate 500 ' ' ++ ['a'])).take 500 = ['a']
    ∧ previewOf (List.replicate 500 ' ' ++ ['a'])
        ≠ (pyStrip (List.replicate 500 ' ' ++ ['a'])).take 500
    ∧ summaryEntry ⟨pystr "pad.txt", pystr ".txt", true,
        Except.ok (List.replicate 500 ' ' ++ ['a'])⟩
        = some (pystr "  - pad.txt: ") := by
  refine ⟨rfl, rfl, ?_, rfl⟩
  intro h
  exact absurd (rfl.trans h : ([] : PyStr) = _) (by rw [show (pyStrip (List.replicate 500 ' ' ++ ['a'])).take 500 = ['a'] from rfl]; decide)

/-- C9 amended: the preview of a summarized document is the strip of the
first 500 characters of its extracted content; when the content is at most
500 characters long this equals the full stripped content. -/
theorem preview_is_strip_of_first500 (fs : List PyFile) (f : PyFile) (content : PyStr)
    (hf : f ∈ fs) (hfile : f.isFile = true) (hsuf : supportedExt f.suffix = true)
    (hex : f.extract = Except.ok content) (hne : content ≠ []) :
    (pystr "  - " ++ f.name ++ pystr ": " ++ pyStrip (content.take 500)) ∈ summaryEntries fs
    ∧ (content.length ≤ 500 → pyStrip (content.take 500) = pyStrip content) := by
  constructor
  · exact List.mem_filterMap.mpr
      ⟨f, hf, by simp [summaryEntry, hfile, hsuf, hex, hne, previewOf]⟩
  · intro hlen
    rw [List.take_of_length_le hlen]

/-- C9 witness: a short document previews as its full stripped content. -/
theorem preview_is_strip_of_first500_witness :
    (pystr "  - " ++ pystr "short.txt" ++ pystr ": " ++ pyStrip ((pystr "  hi  ").take 500))
      ∈ summaryEntries [⟨pystr "short.txt", pystr ".txt", true, Except.ok (pystr "  hi  ")⟩]
    ∧ ((pystr "  hi  ").length ≤ 500 →
        pyStrip ((pystr "  hi  ").take 500) = pyStrip (pystr "  hi  ")) :=
  preview_is_strip_of_first500
    [⟨pystr "short.txt", pystr ".txt", true, Except.ok (pystr "  hi  ")⟩]
    ⟨pystr "short.txt", pystr ".txt", true, Except.ok (pystr "  hi  ")⟩
    (pystr "  hi  ")
    (by decide) rfl rfl rfl (by decide)

/-- C10: reading an existing document with a supported extension whose
extraction yields the empty string returns the "Unsupported file format."
message instead of the empty text. -/
theorem read_document_empty_extraction (fs : List PyFile) (filename : PyStr) (f : PyFile)
    (hfind : findFile fs filename = some f)
    (hsuf : supportedExt f.suffix = true)
    (hex : f.extract = Except.ok []) :
    read_document fs filename = Except.ok (pystr "Unsupported file format.") := by
  have hrf : _read_file f = Except.ok [] := by
    unfold _read_file
    rw [hex]
    simp
  simp only [read_document, hfind, hrf]
  rfl

/-- C10 witness: an empty text file reads as the unsupported-format message. -/
theorem read_document_empty_extraction_witness :
    read_document [⟨pystr "empty.txt", pystr ".txt", true, Except.ok []⟩]
      (pystr "empty.txt")
      = Except.ok (pystr "Unsupported file format.") :=
  read_document_empty_extraction
    [⟨pystr "empty.txt", pystr ".txt", true, Except.ok []⟩]
    (pystr "empty.txt")
    ⟨pystr "empty.txt", pystr ".txt", true, Except.ok []⟩
    rfl rfl rfl
